import Mathlib

/-!
# Verification of the Aether gateway core against its specification

Shallow embedding of the attempt-context, usage-extraction, rate-limited
auth handlers, email-verification and concurrency-counter logic of the
Aether repository, together with proofs of the specified properties.
-/

namespace Aether

/-- JSON-like value, standing in for Python `Dict[str, Any]` payloads
(parsed stream chunks, request bodies, response-body metadata). -/
inductive JsonValue where
  | null : JsonValue
  | bool : Bool → JsonValue
  | int : Int → JsonValue
  | str : String → JsonValue
  | arr : List JsonValue → JsonValue
  | obj : List (String × JsonValue) → JsonValue
deriving Repr

/-- Key lookup in a JSON object (first binding wins), `none` on non-objects
or missing keys. -/
def JsonValue.lookup (j : JsonValue) (k : String) : Option JsonValue :=
  match j with
  | .obj kvs => go kvs
  | _ => none
where
  go : List (String × JsonValue) → Option JsonValue
    | [] => none
    | (k', v) :: rest => if k' = k then some v else go rest

/-- Embedding of the `StreamContext` dataclass
(`src/api/handlers/base/stream_context.py`): per-attempt mutable record of
a streaming upstream call. -/
structure StreamContext where
  model : String
  api_format : String
  provider_name : Option String
  provider_id : Option String
  endpoint_id : Option String
  key_id : Option String
  attempt_id : Option String
  provider_api_format : Option String
  mapped_model : Option String
  input_tokens : Int
  output_tokens : Int
  cached_tokens : Int
  cache_creation_tokens : Int
  collected_text : String
  status_code : Int
  error_message : Option String
  has_completion : Bool
  response_headers : List (String × String)
  provider_request_headers : List (String × String)
  provider_request_body : Option JsonValue
  data_count : Nat
  chunk_count : Nat
  parsed_chunks : List JsonValue
deriving Repr

/-- A freshly constructed `StreamContext(model=..., api_format=...)`: every
other field takes its dataclass default. -/
def StreamContext.fresh (model api_format : String) : StreamContext :=
  { model := model
    api_format := api_format
    provider_name := none
    provider_id := none
    endpoint_id := none
    key_id := none
    attempt_id := none
    provider_api_format := none
    mapped_model := none
    input_tokens := 0
    output_tokens := 0
    cached_tokens := 0
    cache_creation_tokens := 0
    collected_text := ""
    status_code := 200
    error_message := none
    has_completion := false
    response_headers := []
    provider_request_headers := []
    provider_request_body := none
    data_count := 0
    chunk_count := 0
    parsed_chunks := [] }

/-- Embedding of `StreamContext.reset_for_retry`: exactly the fields the
Python method assigns are reset; all other fields are carried over. -/
def StreamContext.reset_for_retry (ctx : StreamContext) : StreamContext :=
  { ctx with
    parsed_chunks := []
    chunk_count := 0
    data_count := 0
    has_completion := false
    collected_text := ""
    input_tokens := 0
    output_tokens := 0
    cached_tokens := 0
    cache_creation_tokens := 0
    error_message := none
    status_code := 200
    response_headers := []
    provider_request_headers := []
    provider_request_body := none }

/-- Embedding of `StreamContext.update_usage`: four sequential defensive
updates, one per counter; a `none` argument models an omitted keyword
argument. Each counter is overwritten only when the new value is strictly
positive or the stored value is zero. -/
def StreamContext.update_usage (ctx : StreamContext)
    (input_tokens output_tokens cached_tokens cache_creation_tokens : Option Int) :
    StreamContext :=
  let c1 :=
    match input_tokens with
    | some v => if v > 0 ∨ ctx.input_tokens = 0 then { ctx with input_tokens := v } else ctx
    | none => ctx
  let c2 :=
    match output_tokens with
    | some v => if v > 0 ∨ c1.output_tokens = 0 then { c1 with output_tokens := v } else c1
    | none => c1
  let c3 :=
    match cached_tokens with
    | some v => if v > 0 ∨ c2.cached_tokens = 0 then { c2 with cached_tokens := v } else c2
    | none => c2
  match cache_creation_tokens with
  | some v =>
      if v > 0 ∨ c3.cache_creation_tokens = 0 then { c3 with cache_creation_tokens := v } else c3
  | none => c3

/-- Embedding of `StreamContext.mark_failed`. -/
def StreamContext.mark_failed (ctx : StreamContext) (status_code : Int)
    (error_message : String) : StreamContext :=
  { ctx with status_code := status_code, error_message := some error_message }

/-- Embedding of `StreamContext.is_success`: `status_code < 400`. -/
def StreamContext.is_success (ctx : StreamContext) : Bool :=
  decide (ctx.status_code < 400)

/-- Embedding of `StreamContext.build_response_body`: the dict literal the
Python method returns. -/
def StreamContext.build_response_body (ctx : StreamContext)
    (response_time_ms : Int) : JsonValue :=
  .obj
    [ ("chunks", .arr ctx.parsed_chunks),
      ("metadata", .obj
        [ ("stream", .bool true),
          ("total_chunks", .int ctx.parsed_chunks.length),
          ("data_count", .int ctx.data_count),
          ("has_completion", .bool ctx.has_completion),
          ("response_time_ms", .int response_time_ms) ]) ]

end Aether

namespace Aether

/-- The defensive-merge rule of `update_usage` for a single counter:
overwrite when the new value is strictly positive or the stored value is
zero. -/
def merge_counter (old : Int) : Option Int → Int
  | some v => if v > 0 ∨ old = 0 then v else old
  | none => old

/-- The four sequential field updates of `update_usage` commute into one
simultaneous record update: each counter is merged against its own stored
value only. -/
theorem update_usage_eq_merge (ctx : StreamContext) (i o c cc : Option Int) :
    ctx.update_usage i o c cc =
      { ctx with
        input_tokens := merge_counter ctx.input_tokens i
        output_tokens := merge_counter ctx.output_tokens o
        cached_tokens := merge_counter ctx.cached_tokens c
        cache_creation_tokens := merge_counter ctx.cache_creation_tokens cc } := by
  rcases i with _ | vi <;> rcases o with _ | vo <;> rcases c with _ | vc <;>
    rcases cc with _ | vcc <;>
      simp only [StreamContext.update_usage, merge_counter] <;>
      split_ifs <;> rfl

/-- C1: `update_usage` treats each of the four counters independently: a
`none` argument leaves the stored value unchanged; a `some v` argument
overwrites the stored value exactly when `v > 0` or the stored value is
`0`, and leaves it unchanged otherwise. -/
theorem update_usage_per_counter (ctx : StreamContext)
    (i o c cc : Option Int) :
    ((i = none → (ctx.update_usage i o c cc).input_tokens = ctx.input_tokens) ∧
     (∀ v, i = some v →
       ((v > 0 ∨ ctx.input_tokens = 0 → (ctx.update_usage i o c cc).input_tokens = v) ∧
        (¬(v > 0 ∨ ctx.input_tokens = 0) →
          (ctx.update_usage i o c cc).input_tokens = ctx.input_tokens)))) ∧
    ((o = none → (ctx.update_usage i o c cc).output_tokens = ctx.output_tokens) ∧
     (∀ v, o = some v →
       ((v > 0 ∨ ctx.output_tokens = 0 → (ctx.update_usage i o c cc).output_tokens = v) ∧
        (¬(v > 0 ∨ ctx.output_tokens = 0) →
          (ctx.update_usage i o c cc).output_tokens = ctx.output_tokens)))) ∧
    ((c = none → (ctx.update_usage i o c cc).cached_tokens = ctx.cached_tokens) ∧
     (∀ v, c = some v →
       ((v > 0 ∨ ctx.cached_tokens = 0 → (ctx.update_usage i o c cc).cached_tokens = v) ∧
        (¬(v > 0 ∨ ctx.cached_tokens = 0) →
          (ctx.update_usage i o c cc).cached_tokens = ctx.cached_tokens)))) ∧
    ((cc = none →
        (ctx.update_usage i o c cc).cache_creation_tokens = ctx.cache_creation_tokens) ∧
     (∀ v, cc = some v →
       ((v > 0 ∨ ctx.cache_creation_tokens = 0 →
          (ctx.update_usage i o c cc).cache_creation_tokens = v) ∧
        (¬(v > 0 ∨ ctx.cache_creation_tokens = 0) →
          (ctx.update_usage i o c cc).cache_creation_tokens = ctx.cache_creation_tokens)))) := by
  rw [update_usage_eq_merge]
  refine ⟨⟨?_, ?_⟩, ⟨?_, ?_⟩, ⟨?_, ?_⟩, ⟨?_, ?_⟩⟩ <;>
    first
      | (rintro rfl; rfl)
      | (rintro v rfl
         constructor <;> intro h <;> simp [merge_counter, h])

/-- C1 witness: concrete evaluation of the per-counter update contract. -/
theorem update_usage_per_counter_witness :
    ((StreamContext.fresh "m" "f").update_usage (some 5) none none none).input_tokens = 5 ∧
    ((StreamContext.fresh "m" "f").update_usage (some 5) none none none).output_tokens = 0 := by
  have h := update_usage_per_counter (StreamContext.fresh "m" "f") (some 5) none none none
  exact ⟨(h.1.2 5 rfl).1 (Or.inl (by decide)), h.2.1.1 rfl⟩

/-- C2: after `reset_for_retry` the four token counters are zero,
`collected_text` is empty, `error_message` is `None`, `status_code` is the
default success value 200, and `model` / `api_format` are unchanged. -/
theorem reset_for_retry_spec (ctx : StreamContext) :
    ctx.reset_for_retry.input_tokens = 0 ∧
    ctx.reset_for_retry.output_tokens = 0 ∧
    ctx.reset_for_retry.cached_tokens = 0 ∧
    ctx.reset_for_retry.cache_creation_tokens = 0 ∧
    ctx.reset_for_retry.collected_text = "" ∧
    ctx.reset_for_retry.error_message = none ∧
    ctx.reset_for_retry.status_code = 200 ∧
    ctx.reset_for_retry.model = ctx.model ∧
    ctx.reset_for_retry.api_format = ctx.api_format := by
  simp [StreamContext.reset_for_retry]

/-- A context in which every provider-identity field has been populated, as
after `update_provider_info` and model mapping on a first attempt. -/
def ctx_populated : StreamContext :=
  { StreamContext.fresh "claude-3" "anthropic" with
    provider_name := some "proxy-a"
    provider_id := some "p1"
    endpoint_id := some "e1"
    key_id := some "k1"
    attempt_id := some "a1"
    provider_api_format := some "openai"
    mapped_model := some "gpt-4o" }

/-- C3: evidence against the claim. `reset_for_retry` does NOT return the
provider-identity fields to their fresh defaults (`None`): on a populated
context, all seven of `provider_name`, `provider_id`, `endpoint_id`,
`key_id`, `attempt_id`, `provider_api_format` and `mapped_model` survive
the reset unchanged, although the method's own docstring says it resets
everything except `model` and `api_format`. -/
theorem reset_for_retry_keeps_provider_fields :
    ctx_populated.reset_for_retry.provider_name = some "proxy-a" ∧
    ctx_populated.reset_for_retry.provider_id = some "p1" ∧
    ctx_populated.reset_for_retry.endpoint_id = some "e1" ∧
    ctx_populated.reset_for_retry.key_id = some "k1" ∧
    ctx_populated.reset_for_retry.attempt_id = some "a1" ∧
    ctx_populated.reset_for_retry.provider_api_format = some "openai" ∧
    ctx_populated.reset_for_retry.mapped_model = some "gpt-4o" := by
  refine ⟨rfl, rfl, rfl, rfl, rfl, rfl, rfl⟩

/-- C4: the defensive token merge on concrete scenarios, and in general:
partial updates combine, a zero update on an already-zero counter leaves
it zero, and once a counter is non-zero an update passing zero for it
never changes it. -/
theorem defensive_token_merge :
    (((StreamContext.fresh "m" "f").update_usage (some 100) (some 0) none none).update_usage
        (some 0) (some 50) none none).input_tokens = 100 ∧
    (((StreamContext.fresh "m" "f").update_usage (some 100) (some 0) none none).update_usage
        (some 0) (some 50) none none).output_tokens = 50 ∧
    ((StreamContext.fresh "m" "f").update_usage (some 0) none none none).input_tokens = 0 ∧
    (((StreamContext.fresh "m" "f").update_usage (some 5) none none none).update_usage
        (some 0) none none none).input_tokens = 5 ∧
    (∀ (ctx : StreamContext) (o c cc : Option Int), ctx.input_tokens ≠ 0 →
      (ctx.update_usage (some 0) o c cc).input_tokens = ctx.input_tokens) ∧
    (∀ (ctx : StreamContext) (i c cc : Option Int), ctx.output_tokens ≠ 0 →
      (ctx.update_usage i (some 0) c cc).output_tokens = ctx.output_tokens) ∧
    (∀ (ctx : StreamContext) (i o cc : Option Int), ctx.cached_tokens ≠ 0 →
      (ctx.update_usage i o (some 0) cc).cached_tokens = ctx.cached_tokens) ∧
    (∀ (ctx : StreamContext) (i o c : Option Int), ctx.cache_creation_tokens ≠ 0 →
      (ctx.update_usage i o c (some 0)).cache_creation_tokens = ctx.cache_creation_tokens) := by
  refine ⟨by decide, by decide, by decide, by decide, ?_, ?_, ?_, ?_⟩ <;>
    · intro ctx a b c h
      simp [update_usage_eq_merge, merge_counter, h]

/-- C4 witness: the zero-never-overwrites-nonzero clause evaluated on a
context whose counters hold 7. -/
theorem defensive_token_merge_witness :
    (({ StreamContext.fresh "m" "f" with input_tokens := 7 } :
        StreamContext).update_usage (some 0) none none none).input_tokens = 7 :=
  defensive_token_merge.2.2.2.2.1
    { StreamContext.fresh "m" "f" with input_tokens := 7 } none none none (by decide)

/-- C6: `is_success` is true iff `status_code < 400`; `mark_failed c m`
stores exactly `c` and `m`, and yields a non-success context whenever
`c ≥ 400`. -/
theorem mark_failed_is_success_spec (ctx : StreamContext) (c : Int) (m : String) :
    (ctx.is_success = true ↔ ctx.status_code < 400) ∧
    (ctx.mark_failed c m).status_code = c ∧
    (ctx.mark_failed c m).error_message = some m ∧
    (400 ≤ c → (ctx.mark_failed c m).is_success = false) := by
  refine ⟨by simp [StreamContext.is_success], rfl, rfl, ?_⟩
  intro h
  simp [StreamContext.is_success, StreamContext.mark_failed]
  omega

/-- C6 witness: a 500 failure on a fresh context is not a success. -/
theorem mark_failed_is_success_spec_witness :
    ((StreamContext.fresh "m" "f").mark_failed 500 "upstream error").is_success = false :=
  (mark_failed_is_success_spec (StreamContext.fresh "m" "f") 500 "upstream error").2.2.2
    (by decide)

/-- A populated context whose `collected_text` holds accumulated output. -/
def ctx_with_text : StreamContext :=
  { StreamContext.fresh "m" "f" with collected_text := "hello world" }

/-- C8 counterexample: `build_response_body` carries no collected-text
data at all — two contexts that differ only in `collected_text` produce
byte-identical payloads, so the payload cannot contain any (truncated or
not) collected-text metadata. -/
theorem build_response_body_ignores_collected_text :
    ctx_with_text.collected_text ≠ (StreamContext.fresh "m" "f").collected_text ∧
    ctx_with_text.build_response_body 5 =
      (StreamContext.fresh "m" "f").build_response_body 5 := by
  exact ⟨by decide, rfl⟩

/-- C8 (amended): `build_response_body` returns the parsed event list under
`"chunks"`, and a `"metadata"` object holding `stream = true`,
`total_chunks` equal to the number of parsed chunks, `data_count`,
`has_completion`, and the latency exactly as passed in
`response_time_ms`; the payload is independent of `collected_text`. -/
theorem build_response_body_spec (ctx : StreamContext) (rt : Int) :
    (ctx.build_response_body rt).lookup "chunks" = some (.arr ctx.parsed_chunks) ∧
    (∃ md, (ctx.build_response_body rt).lookup "metadata" = some md ∧
      md.lookup "stream" = some (.bool true) ∧
      md.lookup "total_chunks" = some (.int ctx.parsed_chunks.length) ∧
      md.lookup "data_count" = some (.int ctx.data_count) ∧
      md.lookup "has_completion" = some (.bool ctx.has_completion) ∧
      md.lookup "response_time_ms" = some (.int rt)) ∧
    (∀ s, ({ ctx with collected_text := s } :
        StreamContext).build_response_body rt = ctx.build_response_body rt) := by
  refine ⟨rfl, ⟨_, rfl, rfl, rfl, rfl, rfl, rfl⟩, fun s => rfl⟩

/-- Embedding of a Python `usage` dict with integer-valued token fields:
an association list; `usage.get(k, 0)` is `usage_get`. -/
def UsageDict := List (String × Int)

/-- `usage.get(key, 0)` — first binding wins, absent keys count as zero. -/
def usage_get (usage : UsageDict) (key : String) : Int :=
  match usage with
  | [] => 0
  | (k, v) :: rest => if k = key then v else usage_get rest key

/-- Embedding of `extract_cache_creation_tokens`
(`src/api/handlers/base/utils.py`): sum the two new-format fields, fall
back to the old-format field when the sum is not strictly positive. -/
def extract_cache_creation_tokens (usage : UsageDict) : Int :=
  let cache_5m := usage_get usage "claude_cache_creation_5_m_tokens"
  let cache_1h := usage_get usage "claude_cache_creation_1_h_tokens"
  let total := cache_5m + cache_1h
  if total > 0 then total else usage_get usage "cache_creation_input_tokens"

/-- C9: `extract_cache_creation_tokens` returns the sum of the two
new-format fields exactly when that sum is strictly positive, and the
old-format field otherwise; a field absent from the dict counts as zero. -/
theorem extract_cache_creation_tokens_spec (usage : UsageDict) :
    (0 < usage_get usage "claude_cache_creation_5_m_tokens" +
         usage_get usage "claude_cache_creation_1_h_tokens" →
       extract_cache_creation_tokens usage =
         usage_get usage "claude_cache_creation_5_m_tokens" +
           usage_get usage "claude_cache_creation_1_h_tokens") ∧
    (¬ 0 < usage_get usage "claude_cache_creation_5_m_tokens" +
           usage_get usage "claude_cache_creation_1_h_tokens" →
       extract_cache_creation_tokens usage =
         usage_get usage "cache_creation_input_tokens") ∧
    (∀ key, usage_get ([] : UsageDict) key = 0) := by
  refine ⟨?_, ?_, fun key => rfl⟩ <;>
    · intro h
      simp [extract_cache_creation_tokens, h]

/-- C9 witness: new format wins when positive; old format is the fallback
on an empty dict. -/
theorem extract_cache_creation_tokens_spec_witness :
    extract_cache_creation_tokens
        [("claude_cache_creation_5_m_tokens", 3), ("claude_cache_creation_1_h_tokens", 4)] = 7 ∧
    extract_cache_creation_tokens [("cache_creation_input_tokens", 9)] = 9 := by
  constructor
  · exact (extract_cache_creation_tokens_spec
      [("claude_cache_creation_5_m_tokens", 3),
       ("claude_cache_creation_1_h_tokens", 4)]).1 (by decide)
  · exact (extract_cache_creation_tokens_spec
      [("cache_creation_input_tokens", 9)]).2.1 (by decide)

end Aether

namespace Aether

/-- Result triple of `IPRateLimiter.check_limit`, as consumed by the auth
route adapters (`src/api/auth/routes.py`). -/
structure RateLimitResult where
  allowed : Bool
  remaining : Nat
  reset_after : Nat
deriving Repr, DecidableEq

/-- An HTTP-exception outcome: status code plus detail message. -/
structure HttpError where
  status_code : Int
  detail : String
deriving Repr, DecidableEq

/-- `AuthLoginAdapter.handle` after body validation: the rate-limit gate
followed by the rest of the handler (authentication, audit, token
issuance), abstracted as a continuation. -/
def AuthLoginAdapter.handle {α : Type} (rl : RateLimitResult)
    (rest : Unit → Except HttpError α) : Except HttpError α :=
  if rl.allowed = false then
    .error { status_code := 429
             detail := "登录请求过于频繁，请在 " ++ toString rl.reset_after ++ " 秒后重试" }
  else rest ()

/-- `AuthRegisterAdapter.handle` after body validation: rate-limit gate,
then the rest (registration-enabled check, verification check, user
creation), abstracted as a continuation. -/
def AuthRegisterAdapter.handle {α : Type} (rl : RateLimitResult)
    (rest : Unit → Except HttpError α) : Except HttpError α :=
  if rl.allowed = false then
    .error { status_code := 429
             detail := "注册请求过于频繁，请在 " ++ toString rl.reset_after ++ " 秒后重试" }
  else rest ()

/-- `AuthSendVerificationCodeAdapter.handle` after body validation:
rate-limit gate, then the rest (code generation and email send). -/
def AuthSendVerificationCodeAdapter.handle {α : Type} (rl : RateLimitResult)
    (rest : Unit → Except HttpError α) : Except HttpError α :=
  if rl.allowed = false then
    .error { status_code := 429
             detail := "请求过于频繁，请在 " ++ toString rl.reset_after ++ " 秒后重试" }
  else rest ()

/-- `AuthVerifyEmailAdapter.handle` after body validation: rate-limit
gate, then the rest (code verification). -/
def AuthVerifyEmailAdapter.handle {α : Type} (rl : RateLimitResult)
    (rest : Unit → Except HttpError α) : Except HttpError α :=
  if rl.allowed = false then
    .error { status_code := 429
             detail := "请求过于频繁，请在 " ++ toString rl.reset_after ++ " 秒后重试" }
  else rest ()

/-- C7: whenever the limiter result is not allowed, each of the four auth
handlers raises HTTP 429 with a detail carrying the limiter's
`reset_after` seconds, and the downstream action (authentication, user
creation, code send/verify) is never consulted: the outcome is identical
for any two continuations. -/
theorem rate_limited_handlers_reject_with_429 {α : Type} (rl : RateLimitResult)
    (rest rest' : Unit → Except HttpError α) (h : rl.allowed = false) :
    (AuthLoginAdapter.handle rl rest =
      .error { status_code := 429
               detail := "登录请求过于频繁，请在 " ++ toString rl.reset_after ++ " 秒后重试" }) ∧
    (AuthRegisterAdapter.handle rl rest =
      .error { status_code := 429
               detail := "注册请求过于频繁，请在 " ++ toString rl.reset_after ++ " 秒后重试" }) ∧
    (AuthSendVerificationCodeAdapter.handle rl rest =
      .error { status_code := 429
               detail := "请求过于频繁，请在 " ++ toString rl.reset_after ++ " 秒后重试" }) ∧
    (AuthVerifyEmailAdapter.handle rl rest =
      .error { status_code := 429
               detail := "请求过于频繁，请在 " ++ toString rl.reset_after ++ " 秒后重试" }) ∧
    AuthLoginAdapter.handle rl rest = AuthLoginAdapter.handle rl rest' ∧
    AuthRegisterAdapter.handle rl rest = AuthRegisterAdapter.handle rl rest' ∧
    AuthSendVerificationCodeAdapter.handle rl rest =
      AuthSendVerificationCodeAdapter.handle rl rest' ∧
    AuthVerifyEmailAdapter.handle rl rest = AuthVerifyEmailAdapter.handle rl rest' := by
  simp [AuthLoginAdapter.handle, AuthRegisterAdapter.handle,
    AuthSendVerificationCodeAdapter.handle, AuthVerifyEmailAdapter.handle, h]

/-- C7 witness: a denied limiter result with 30 seconds to reset rejects a
login with 429 regardless of the authentication continuation. -/
theorem rate_limited_handlers_reject_with_429_witness :
    AuthLoginAdapter.handle (α := Nat) ⟨false, 0, 30⟩ (fun _ => .ok 1) =
      .error { status_code := 429, detail := "登录请求过于频繁，请在 30 秒后重试" } :=
  (rate_limited_handlers_reject_with_429 ⟨false, 0, 30⟩
    (fun _ => .ok 1) (fun _ => .ok 2) rfl).1

/-- Operations on one concurrency counter (per endpoint-ID or per
key-ID). -/
inductive ConcurrencyOp where
  | acquire : ConcurrencyOp
  | release : ConcurrencyOp
  | reset : ConcurrencyOp
deriving Repr, DecidableEq

/-- Modelled from the spec: the Concurrency Admission Controller
(`src/services/rate_limit/concurrency_manager.py` is not among the
sources; only its admin callers are). Per the spec, `acquire` atomically
increments a counter, `release` atomically decrements it but "never
decrements below zero (defensive floor)", and `reset` "forcibly sets the
named counter(s) to zero". Effect of one operation on one counter. -/
def apply_op (c : Int) : ConcurrencyOp → Int
  | .acquire => c + 1
  | .release => max (c - 1) 0
  | .reset => 0

/-- Effect of a sequence of operations on one counter. -/
def apply_ops (c : Int) (ops : List ConcurrencyOp) : Int :=
  ops.foldl apply_op c

/-- One operation keeps a non-negative counter non-negative. -/
theorem apply_op_nonneg (c : Int) (op : ConcurrencyOp) (h : 0 ≤ c) :
    0 ≤ apply_op c op := by
  cases op with
  | acquire => simp only [apply_op]; omega
  | release => exact le_max_right _ _
  | reset => exact le_rfl

/-- A sequence of operations keeps a non-negative counter non-negative. -/
theorem apply_ops_nonneg (ops : List ConcurrencyOp) (c : Int) (h : 0 ≤ c) :
    0 ≤ apply_ops c ops := by
  induction ops generalizing c with
  | nil => exact h
  | cons op rest ih => exact ih (apply_op c op) (apply_op_nonneg c op h)

/-- C5: a concurrency counter never becomes negative under any sequence of
acquire/release/reset operations; `release` on a counter at zero leaves it
at zero, and any number of extra releases after an arbitrary operation
sequence still leaves the counter non-negative (clamped at zero). -/
theorem concurrency_counter_never_negative (ops : List ConcurrencyOp) (n : Nat) :
    apply_op 0 .release = 0 ∧
    0 ≤ apply_ops 0 ops ∧
    0 ≤ apply_ops (apply_ops 0 ops) (List.replicate n .release) ∧
    apply_ops 0 (List.replicate n .release) = 0 := by
  refine ⟨rfl, apply_ops_nonneg ops 0 le_rfl,
    apply_ops_nonneg _ _ (apply_ops_nonneg ops 0 le_rfl), ?_⟩
  induction n with
  | zero => rfl
  | succ k ih => simpa [List.replicate_succ, apply_ops, apply_op] using ih

end Aether

namespace Aether

/-- The stored verification-code record for one email address
(`src/services/verification/email_verification.py`): the code and the
number of failed attempts so far. Redis expiry is abstracted away: the
store is `some` exactly when the key exists with positive TTL. -/
structure VerificationData where
  code : String
  attempts : Nat
deriving Repr, DecidableEq

/-- `DEFAULT_MAX_ATTEMPTS` of `EmailVerificationService`. -/
def DEFAULT_MAX_ATTEMPTS : Nat := 5

/-- Embedding of `EmailVerificationService.verify_code` for one email:
takes the user's input and the stored record, returns the
`(success, message)` pair and the stored record afterwards. Mirrors the
source: missing record fails; a record with `attempts >=
DEFAULT_MAX_ATTEMPTS` is deleted and the call fails; otherwise the
attempt count is incremented, a mismatch persists the incremented count
and fails, and a match deletes the record and succeeds. -/
def verify_code (input : String) (store : Option VerificationData) :
    (Bool × String) × Option VerificationData :=
  match store with
  | none => ((false, "验证码不存在或已过期"), none)
  | some data =>
    if data.attempts ≥ DEFAULT_MAX_ATTEMPTS then
      ((false, "验证码尝试次数过多，请重新发送"), none)
    else
      let updated : VerificationData := { data with attempts := data.attempts + 1 }
      if input ≠ data.code then
        ((false, "验证码错误，剩余尝试次数: " ++
            toString (DEFAULT_MAX_ATTEMPTS - updated.attempts)), some updated)
      else
        ((true, "验证成功"), none)

/-- C10: at most 5 verification attempts are accepted — a failed
`verify_code` increments the persisted attempt count; a record whose
count has reached 5 is deleted and the call fails regardless of the
input; once the record is gone every call fails and leaves the store
empty; and a successful match deletes the record (single use), so a
second call with the same code fails. -/
theorem verify_code_attempt_limit (d : VerificationData) (input : String) :
    (d.attempts < DEFAULT_MAX_ATTEMPTS → input ≠ d.code →
      verify_code input (some d) =
        ((false, "验证码错误，剩余尝试次数: " ++
            toString (DEFAULT_MAX_ATTEMPTS - (d.attempts + 1))),
         some { d with attempts := d.attempts + 1 })) ∧
    (DEFAULT_MAX_ATTEMPTS ≤ d.attempts →
      (verify_code input (some d)).1.1 = false ∧
      (verify_code input (some d)).2 = none) ∧
    ((verify_code input none).1.1 = false ∧ (verify_code input none).2 = none) ∧
    (d.attempts < DEFAULT_MAX_ATTEMPTS → input = d.code →
      (verify_code input (some d)).1.1 = true ∧
      (verify_code input (some d)).2 = none) := by
  refine ⟨?_, ?_, ⟨rfl, rfl⟩, ?_⟩
  · intro hlt hne
    simp [verify_code, Nat.not_le_of_lt hlt, hne]
  · intro hge
    simp [verify_code, Nat.le_of_lt_succ, hge]
  · intro hlt heq
    simp [verify_code, Nat.not_le_of_lt hlt, heq]

/-- C10 witness: a wrong first attempt against code `123456` fails and
persists an attempt count of 1; a sixth attempt (count 5) fails and
deletes the record; the correct code on a fresh record succeeds and
deletes the record. -/
theorem verify_code_attempt_limit_witness :
    verify_code "000000" (some ⟨"123456", 0⟩) =
      ((false, "验证码错误，剩余尝试次数: 4"), some ⟨"123456", 1⟩) ∧
    ((verify_code "123456" (some ⟨"123456", 5⟩)).1.1 = false ∧
      (verify_code "123456" (some ⟨"123456", 5⟩)).2 = none) ∧
    ((verify_code "123456" (some ⟨"123456", 0⟩)).1.1 = true ∧
      (verify_code "123456" (some ⟨"123456", 0⟩)).2 = none) := by
  refine ⟨?_, ?_, ?_⟩
  · exact (verify_code_attempt_limit ⟨"123456", 0⟩ "000000").1 (by decide) (by decide)
  · exact (verify_code_attempt_limit ⟨"123456", 5⟩ "123456").2.1 (by decide)
  · exact (verify_code_attempt_limit ⟨"123456", 0⟩ "123456").2.2.2 (by decide) rfl

end Aether
